import Mathlib

/-!
# LoyaltySDK: call validation and transaction lifecycle

A shallow embedding of `loyalty-sdk/src/LoyaltySDK.ts`.

* A JavaScript `number` is a `JsNumber`: a finite value, kept exactly as a rational, or one
  of `NaN`, `+Infinity`, `-Infinity`.
* A thrown `Error` is a `JsError`.
* An `async` method is an `Async σ α`: a function from the world (the state `σ` of the remote
  side together with the log of the calls the contract object received) to a result, either
  a value or a thrown error, and the world after it.
* `this.contract` is a `Contract σ`: one field per method of the contract object, and `wait`
  for the `wait()` of the transaction objects it hands out.
* `ethers.utils.isAddress` is a library function and is a parameter of the SDK.
-/

namespace LoyaltySDK

/-! ## Values -/

/-- A JavaScript `number`: finite values are exact rationals. -/
inductive JsNumber where
  | finite (q : ℚ)
  | nan
  | posInf
  | negInf
  deriving DecidableEq

namespace JsNumber

instance : OfNat JsNumber n := ⟨finite n⟩

/-- The JavaScript comparison `value < 0`. -/
def ltZero : JsNumber → Bool
  | finite q => decide (q < 0)
  | nan => false
  | posInf => false
  | negInf => true

/-- The JavaScript comparison `value >= 0`. -/
def geZero : JsNumber → Bool
  | finite q => decide (0 ≤ q)
  | nan => false
  | posInf => true
  | negInf => false

/-- A finite number without fractional part. -/
def isInteger : JsNumber → Bool
  | finite q => decide (q.den = 1)
  | _ => false

end JsNumber

/-- A thrown JavaScript error: its message and, for errors reported by the network, the
reason string. -/
structure JsError where
  message : String
  reason : Option String := none
  deriving DecidableEq

/-- The value `new Error(message)`. -/
def JsError.new (message : String) : JsError := { message := message }

/-- An `ethers` `BigNumber`. -/
abbrev BigNumber := Int

/-- The transaction object returned by a state-changing contract method, identified by a
handle. -/
abbrev Tx := Nat

/-- The methods of the contract object. -/
inductive Method where
  | balanceOf
  | transfer
  | approve
  | allowance
  | increaseAllowance
  | decreaseAllowance
  | transferFrom
  | transferOwnership
  | owner
  deriving DecidableEq

/-- An argument passed to a contract method. -/
inductive Arg where
  | addr (s : String)
  | num (n : JsNumber)
  deriving DecidableEq

/-- One call received by the contract object: a method invocation with its arguments, or a
`wait()` on a transaction it returned. -/
inductive Event where
  | invoke (m : Method) (args : List Arg)
  | wait (tx : Tx)
  deriving DecidableEq

/-- Whether the event is a method invocation. -/
def Event.isInvoke : Event → Bool
  | invoke _ _ => true
  | wait _ => false

/-- Whether the event is a `wait()`. -/
def Event.isWait : Event → Bool
  | invoke _ _ => false
  | wait _ => true

/-! ## Asynchronous computations -/

/-- The remote side and the log of the calls made to the contract object. -/
structure World (σ : Type) where
  chain : σ
  trace : List Event

/-- An asynchronous computation, run to completion. -/
def Async (σ α : Type) : Type := World σ → Except JsError α × World σ

namespace Async

variable {σ α β : Type}

/-- The computation `return a`. -/
def pure (a : α) : Async σ α := fun w => (.ok a, w)

/-- The computation `throw e`. -/
def throw (e : JsError) : Async σ α := fun w => (.error e, w)

/-- Sequencing, `await` included: a thrown error ends the computation. -/
def bind (m : Async σ α) (f : α → Async σ β) : Async σ β := fun w =>
  match m w with
  | (.ok a, w') => f a w'
  | (.error e, w') => (.error e, w')

instance : Monad (Async σ) where
  pure := Async.pure
  bind := Async.bind

/-- A call on the contract object: it is logged, then it runs on the remote side. -/
def call (ev : Event) (f : σ → Except JsError α × σ) : Async σ α := fun w =>
  let r := f w.chain
  (r.1, { chain := r.2, trace := w.trace ++ [ev] })

end Async

/-- The contract object `this.contract`. -/
structure Contract (σ : Type) where
  balanceOf : String → σ → Except JsError BigNumber × σ
  transfer : String → JsNumber → σ → Except JsError Tx × σ
  approve : String → JsNumber → σ → Except JsError Tx × σ
  allowance : String → String → σ → Except JsError BigNumber × σ
  increaseAllowance : String → JsNumber → σ → Except JsError Tx × σ
  decreaseAllowance : String → JsNumber → σ → Except JsError Tx × σ
  transferFrom : String → String → JsNumber → σ → Except JsError Tx × σ
  transferOwnership : String → σ → Except JsError Tx × σ
  owner : σ → Except JsError String × σ
  wait : Tx → σ → Except JsError Unit × σ

/-! ## The calls on the contract object, logged -/

namespace Stub

open Async

variable {σ : Type} (c : Contract σ)

def balanceOf (account : String) : Async σ BigNumber :=
  call (.invoke .balanceOf [.addr account]) (c.balanceOf account)

def transfer (to_ : String) (amount : JsNumber) : Async σ Tx :=
  call (.invoke .transfer [.addr to_, .num amount]) (c.transfer to_ amount)

def approve (spender : String) (amount : JsNumber) : Async σ Tx :=
  call (.invoke .approve [.addr spender, .num amount]) (c.approve spender amount)

def allowance (owner spender : String) : Async σ BigNumber :=
  call (.invoke .allowance [.addr owner, .addr spender]) (c.allowance owner spender)

def increaseAllowance (spender : String) (amount : JsNumber) : Async σ Tx :=
  call (.invoke .increaseAllowance [.addr spender, .num amount])
    (c.increaseAllowance spender amount)

def decreaseAllowance (spender : String) (amount : JsNumber) : Async σ Tx :=
  call (.invoke .decreaseAllowance [.addr spender, .num amount])
    (c.decreaseAllowance spender amount)

def transferFrom (from_ to_ : String) (amount : JsNumber) : Async σ Tx :=
  call (.invoke .transferFrom [.addr from_, .addr to_, .num amount])
    (c.transferFrom from_ to_ amount)

def transferOwnership (newOwner : String) : Async σ Tx :=
  call (.invoke .transferOwnership [.addr newOwner]) (c.transferOwnership newOwner)

def owner : Async σ String :=
  call (.invoke .owner []) c.owner

def wait (tx : Tx) : Async σ Unit :=
  call (.wait tx) (c.wait tx)

end Stub

/-! ## The SDK -/

/-- The class `LoyaltySDK`: the library function `ethers.utils.isAddress` and the contract
object. -/
structure SDK (σ : Type) where
  isAddress : String → Bool
  contract : Contract σ

/-- The error thrown by `checkAddress`. -/
def invalidAddressError : JsError := JsError.new "Invalid Ethereum address"

/-- The error thrown by `checkPositiveNumber`. -/
def invalidAmountError : JsError := JsError.new "Value must be a positive number"

namespace SDK

variable {σ : Type} (sdk : SDK σ)

def checkAddress (address : String) : Async σ Unit :=
  if !sdk.isAddress address then
    Async.throw invalidAddressError
  else
    Async.pure ()

def checkPositiveNumber (_ : SDK σ) (value : JsNumber) : Async σ Unit :=
  if value.ltZero then
    Async.throw invalidAmountError
  else
    Async.pure ()

def getBalance (account : String) : Async σ String := do
  sdk.checkAddress account
  let balance ← Stub.balanceOf sdk.contract account
  return toString balance

def transfer (to_ : String) (amount : JsNumber) : Async σ Unit := do
  sdk.checkAddress to_
  sdk.checkPositiveNumber amount
  let tx ← Stub.transfer sdk.contract to_ amount
  Stub.wait sdk.contract tx

def approve (spender : String) (amount : JsNumber) : Async σ Unit := do
  sdk.checkAddress spender
  sdk.checkPositiveNumber amount
  let tx ← Stub.approve sdk.contract spender amount
  Stub.wait sdk.contract tx

def allowance (owner spender : String) : Async σ String := do
  sdk.checkAddress owner
  sdk.checkAddress spender
  let allowedAmount ← Stub.allowance sdk.contract owner spender
  return toString allowedAmount

def increaseAllowance (spender : String) (amount : JsNumber) : Async σ Unit := do
  sdk.checkAddress spender
  let _ ← Stub.increaseAllowance sdk.contract spender amount

def decreaseAllowance (spender : String) (amount : JsNumber) : Async σ Unit := do
  sdk.checkAddress spender
  let _ ← Stub.decreaseAllowance sdk.contract spender amount

def transferFrom (from_ to_ : String) (amount : JsNumber) : Async σ Unit := do
  sdk.checkAddress from_
  sdk.checkAddress to_
  sdk.checkPositiveNumber amount
  let _ ← Stub.transferFrom sdk.contract from_ to_ amount

def transferOwnership (newOwner : String) : Async σ Unit := do
  sdk.checkAddress newOwner
  let _ ← Stub.transferOwnership sdk.contract newOwner

def owner : Async σ String :=
  Stub.owner sdk.contract

end SDK

/-! ## Sample collaborators for the concrete evaluations -/

/-- The constant `ethers.constants.AddressZero`. -/
def ZERO_ADDRESS : String := "0x0000000000000000000000000000000000000000"

/-- A sample address predicate: `0x` followed by forty digits or lower-case hexadecimal
letters. `ethers.utils.isAddress` accepts every such string. -/
def isHexAddress (s : String) : Bool :=
  match s.data with
  | '0' :: 'x' :: rest =>
    rest.length == 40 && rest.all (fun c => c.isDigit || (decide ('a' ≤ c) && decide (c ≤ 'f')))
  | _ => false

/-- A sample well-formed address. -/
def ALICE : String := "0x00000000000000000000000000000000000a11ce"

/-- A sample well-formed address. -/
def BOB : String := "0x0000000000000000000000000000000000000b0b"

/-- A recording mock of the contract object. Its state is the number of transactions it has
handed out: every read answers `0` (the owner: `ZERO_ADDRESS`), every state-changing method
answers a fresh transaction, and `wait()` on any transaction answers `waitResult`. -/
def mock (waitResult : Except JsError Unit) : Contract Nat where
  balanceOf := fun _ n => (.ok 0, n)
  transfer := fun _ _ n => (.ok n, n + 1)
  approve := fun _ _ n => (.ok n, n + 1)
  allowance := fun _ _ n => (.ok 0, n)
  increaseAllowance := fun _ _ n => (.ok n, n + 1)
  decreaseAllowance := fun _ _ n => (.ok n, n + 1)
  transferFrom := fun _ _ _ n => (.ok n, n + 1)
  transferOwnership := fun _ n => (.ok n, n + 1)
  owner := fun n => (.ok ZERO_ADDRESS, n)
  wait := fun _ n => (waitResult, n)

/-- The SDK over the mock, with the sample address predicate. -/
def mockSDK (waitResult : Except JsError Unit) : SDK Nat where
  isAddress := isHexAddress
  contract := mock waitResult

/-- The world before any call: nothing logged. -/
def World.init {σ : Type} (chain : σ) : World σ := { chain := chain, trace := [] }

/-- A revert reported by the network. -/
def revertError : JsError :=
  { message := "transaction failed", reason := some "revert" }

/-- The method invocations in the log, the `wait()` calls left out. -/
def World.invocations {σ : Type} (w : World σ) : List Event := w.trace.filter Event.isInvoke

/-- The `wait()` calls in the log. -/
def World.waits {σ : Type} (w : World σ) : List Event := w.trace.filter Event.isWait

/-! ## The reference token contract -/

/-- The token amount a number stands for, when it is a non-negative integral quantity. -/
def JsNumber.toAmount : JsNumber → Option Nat
  | .finite q => if q.den = 1 ∧ 0 ≤ q.num then some q.num.toNat else none
  | _ => none

/-- Modelled from the spec: the finalized state of the token contract
(`contracts/LoyaltyToken.sol`, which is not among the sources): the balances, the allowances
`(owner, spender) → remaining approved amount`, and the owner. -/
structure Ledger where
  balances : String → Nat
  allowances : String → String → Nat
  owner : String

/-- Modelled from the spec: a submitted state-changing call of the token contract, one
constructor per mutating operation of the proxy. -/
inductive Request where
  | transfer (to_ : String) (amount : Nat)
  | approve (spender : String) (amount : Nat)
  | increaseAllowance (spender : String) (amount : Nat)
  | decreaseAllowance (spender : String) (amount : Nat)
  | transferFrom (from_ to_ : String) (amount : Nat)
  | transferOwnership (newOwner : String)

/-- The error of a transaction the contract rejected. -/
def revertWith (reason : String) : JsError :=
  { message := "transaction failed: revert " ++ reason, reason := some reason }

/-- Modelled from the spec: the state transition of the token contract, which the sources do
not contain. `transfer` debits the caller and credits `to`; `approve` sets
`allowance(caller, spender) = amount`; `increaseAllowance` adds to it; `decreaseAllowance`
subtracts from it and must not go negative; `transferFrom` debits `from` against the caller's
allowance and credits `to`; `transferOwnership` succeeds only for the current owner. The
contract rejects insufficient balance, insufficient allowance and a zero-address recipient. -/
def Ledger.apply (caller : String) (l : Ledger) : Request → Except JsError Ledger
  | .transfer to_ amount =>
    if to_ = ZERO_ADDRESS then .error (revertWith "transfer to the zero address")
    else if l.balances caller < amount then .error (revertWith "insufficient balance")
    else
      let debited := fun a => if a = caller then l.balances a - amount else l.balances a
      .ok { l with balances := fun a => if a = to_ then debited a + amount else debited a }
  | .approve spender amount =>
    .ok { l with allowances := fun o s =>
      if o = caller ∧ s = spender then amount else l.allowances o s }
  | .increaseAllowance spender amount =>
    .ok { l with allowances := fun o s =>
      if o = caller ∧ s = spender then l.allowances o s + amount else l.allowances o s }
  | .decreaseAllowance spender amount =>
    if l.allowances caller spender < amount then
      .error (revertWith "decreased allowance below zero")
    else
      .ok { l with allowances := fun o s =>
        if o = caller ∧ s = spender then l.allowances o s - amount else l.allowances o s }
  | .transferFrom from_ to_ amount =>
    if to_ = ZERO_ADDRESS then .error (revertWith "transfer to the zero address")
    else if l.allowances from_ caller < amount then .error (revertWith "insufficient allowance")
    else if l.balances from_ < amount then .error (revertWith "insufficient balance")
    else
      let debited := fun a => if a = from_ then l.balances a - amount else l.balances a
      .ok { balances := fun a => if a = to_ then debited a + amount else debited a
            allowances := fun o s =>
              if o = from_ ∧ s = caller then l.allowances o s - amount else l.allowances o s
            owner := l.owner }
  | .transferOwnership newOwner =>
    if caller = l.owner then .ok { l with owner := newOwner }
    else .error (revertWith "caller is not the owner")

/-- Modelled from the spec: the network in front of the token contract, which the sources do
not contain. A submitted call is a pending transaction; it becomes Confirmed or Reverted when
the network finalizes it. With `automine` the network finalizes a transaction as soon as it
is submitted (a local development chain); without, a transaction stays pending until a
`wait()` makes the caller sit out its finalization. -/
structure Chain where
  signer : String
  ledger : Ledger
  automine : Bool
  pending : List (Tx × Request)
  receipts : List (Tx × Option JsError)
  nextTx : Tx

namespace Chain

/-- Finalize one transaction: Confirmed, with its state change, or Reverted, without. -/
def finalize (c : Chain) (p : Tx × Request) : Chain :=
  match c.ledger.apply c.signer p.2 with
  | .ok l => { c with ledger := l, receipts := c.receipts ++ [(p.1, none)] }
  | .error e => { c with receipts := c.receipts ++ [(p.1, some e)] }

/-- Finalize the pending transactions, in the order of submission. -/
def mine (c : Chain) : Chain :=
  c.pending.foldl finalize { c with pending := [] }

/-- Submit a state-changing call: the answer is the handle of the pending transaction. -/
def submit (req : Request) (c : Chain) : Except JsError Tx × Chain :=
  let c' := { c with pending := c.pending ++ [(c.nextTx, req)], nextTx := c.nextTx + 1 }
  (.ok c.nextTx, if c.automine then c'.mine else c')

/-- A call whose amount is not a token amount is not submitted. -/
def submitAmount (amount : JsNumber) (req : Nat → Request) (c : Chain) :
    Except JsError Tx × Chain :=
  match amount.toAmount with
  | some n => submit (req n) c
  | none => (.error (JsError.new "invalid token amount"), c)

/-- Wait for the finalization of a transaction: nothing on Confirmed, the revert error on
Reverted. -/
def wait (tx : Tx) (c : Chain) : Except JsError Unit × Chain :=
  let c' := c.mine
  match c'.receipts.lookup tx with
  | some none => (.ok (), c')
  | some (some e) => (.error e, c')
  | none => (.error (JsError.new "unknown transaction"), c')

/-- The contract object bound to the reference token contract. -/
def contract : Contract Chain where
  balanceOf := fun account c => (.ok (c.ledger.balances account : Int), c)
  transfer := fun to_ amount => submitAmount amount (Request.transfer to_)
  approve := fun spender amount => submitAmount amount (Request.approve spender)
  allowance := fun owner spender c => (.ok (c.ledger.allowances owner spender : Int), c)
  increaseAllowance := fun spender amount =>
    submitAmount amount (Request.increaseAllowance spender)
  decreaseAllowance := fun spender amount =>
    submitAmount amount (Request.decreaseAllowance spender)
  transferFrom := fun from_ to_ amount => submitAmount amount (Request.transferFrom from_ to_)
  transferOwnership := fun newOwner => submit (Request.transferOwnership newOwner)
  owner := fun c => (.ok c.ledger.owner, c)
  wait := wait

/-- The chain after deployment by `signer`, who owns the contract and holds the supply. -/
def genesis (signer : String) (automine : Bool) : Chain where
  signer := signer
  ledger := { balances := fun a => if a = signer then 1000000 * 10 ^ 18 else 0
              allowances := fun _ _ => 0
              owner := signer }
  automine := automine
  pending := []
  receipts := []
  nextTx := 0

end Chain

/-- The SDK bound to the reference token contract, with the sample address predicate. -/
def referenceSDK : SDK Chain where
  isAddress := isHexAddress
  contract := Chain.contract

/-! ## Elementary facts -/

section Basics

variable {σ α β : Type}

theorem Async.bind_ok {m : Async σ α} {f : α → Async σ β} {w w' : World σ} {a : α}
    (h : m w = (.ok a, w')) : (m >>= f) w = f a w' := by
  show Async.bind m f w = _
  simp [Async.bind, h]

theorem Async.bind_error {m : Async σ α} {f : α → Async σ β} {w w' : World σ} {e : JsError}
    (h : m w = (.error e, w')) : (m >>= f) w = (.error e, w') := by
  show Async.bind m f w = _
  simp [Async.bind, h]

theorem SDK.checkAddress_invalid (sdk : SDK σ) {s : String} (h : sdk.isAddress s = false)
    (w : World σ) : sdk.checkAddress s w = (.error invalidAddressError, w) := by
  simp [SDK.checkAddress, h, Async.throw]

theorem SDK.checkAddress_valid (sdk : SDK σ) {s : String} (h : sdk.isAddress s = true)
    (w : World σ) : sdk.checkAddress s w = (.ok (), w) := by
  simp [SDK.checkAddress, h, Async.pure]

theorem SDK.checkPositiveNumber_negative (sdk : SDK σ) {v : JsNumber} (h : v.ltZero = true)
    (w : World σ) : sdk.checkPositiveNumber v w = (.error invalidAmountError, w) := by
  simp [SDK.checkPositiveNumber, h, Async.throw]

theorem SDK.checkPositiveNumber_pass (sdk : SDK σ) {v : JsNumber} (h : v.ltZero = false)
    (w : World σ) : sdk.checkPositiveNumber v w = (.ok (), w) := by
  simp [SDK.checkPositiveNumber, h, Async.pure]

theorem Async.call_error (ev : Event) (f : σ → Except JsError α × σ) (w : World σ)
    {e : JsError} {st : σ} (h : f w.chain = (.error e, st)) :
    Async.call ev f w = (.error e, { chain := st, trace := w.trace ++ [ev] }) := by
  simp [Async.call, h]

theorem Async.call_ok (ev : Event) (f : σ → Except JsError α × σ) (w : World σ)
    {a : α} {st : σ} (h : f w.chain = (.ok a, st)) :
    Async.call ev f w = (.ok a, { chain := st, trace := w.trace ++ [ev] }) := by
  simp [Async.call, h]

theorem isHexAddress_ZERO_ADDRESS : isHexAddress ZERO_ADDRESS = true := by decide

theorem isHexAddress_ALICE : isHexAddress ALICE = true := by decide

theorem isHexAddress_BOB : isHexAddress BOB = true := by decide

theorem isHexAddress_bad : isHexAddress "not-an-address" = false := by decide

end Basics

/-! ## Validation -/

/-- C1: an operation called with a string that is not a valid address in an address position,
whatever the other arguments, fails with the invalid-address error and leaves the world as it
was: the contract object logs no call, neither a read, nor a submit, nor a wait. -/
theorem invalid_address_rejected_before_any_call {σ : Type} (sdk : SDK σ) (s : String)
    (h : sdk.isAddress s = false) (x : String) (a : JsNumber) (w : World σ) :
    sdk.getBalance s w = (.error invalidAddressError, w) ∧
    sdk.transfer s a w = (.error invalidAddressError, w) ∧
    sdk.approve s a w = (.error invalidAddressError, w) ∧
    sdk.allowance s x w = (.error invalidAddressError, w) ∧
    sdk.allowance x s w = (.error invalidAddressError, w) ∧
    sdk.increaseAllowance s a w = (.error invalidAddressError, w) ∧
    sdk.decreaseAllowance s a w = (.error invalidAddressError, w) ∧
    sdk.transferFrom s x a w = (.error invalidAddressError, w) ∧
    sdk.transferFrom x s a w = (.error invalidAddressError, w) ∧
    sdk.transferOwnership s w = (.error invalidAddressError, w) := by
  have hs := sdk.checkAddress_invalid h
  have first : ∀ {β : Type} (k : Unit → Async σ β) (w : World σ),
      (sdk.checkAddress s >>= k) w = (.error invalidAddressError, w) :=
    fun k w => Async.bind_error (hs w)
  have second : ∀ {β : Type} (k : Unit → Async σ β) (w : World σ),
      (sdk.checkAddress x >>= fun _ => sdk.checkAddress s >>= k) w
        = (.error invalidAddressError, w) := by
    intro β k w
    cases hx : sdk.isAddress x
    · exact Async.bind_error (sdk.checkAddress_invalid hx w)
    · rw [Async.bind_ok (sdk.checkAddress_valid hx w)]
      exact first k w
  refine ⟨first _ w, first _ w, first _ w, first _ w, second _ w, first _ w, first _ w,
    first _ w, second _ w, first _ w⟩

/-- C1, at a concrete input: the mock logs nothing when `getBalance` and the others receive
`"not-an-address"`. -/
theorem invalid_address_rejected_before_any_call_witness :
    (mockSDK (.ok ())).isAddress "not-an-address" = false ∧
    (mockSDK (.ok ())).getBalance "not-an-address" (World.init 0)
      = (.error invalidAddressError, World.init 0) :=
  ⟨isHexAddress_bad,
    (invalid_address_rejected_before_any_call (mockSDK (.ok ())) "not-an-address"
      isHexAddress_bad ALICE 5 (World.init 0)).1⟩

/-- C6: the amount validator fails exactly when `value < 0` holds, and then with the
invalid-amount error; otherwise, so for every `value >= 0` and for `0`, it returns without
error; in both cases it leaves the world as it was. A transfer of `0` passes validation and is
submitted. -/
theorem amount_validator_fails_iff_negative {σ : Type} (sdk : SDK σ) (v : JsNumber)
    (w : World σ) :
    ((sdk.checkPositiveNumber v w).1 = .error invalidAmountError ↔ v.ltZero = true) ∧
    ((sdk.checkPositiveNumber v w).1 = .ok () ↔ v.ltZero = false) ∧
    (v.geZero = true → sdk.checkPositiveNumber v w = (.ok (), w)) ∧
    (sdk.checkPositiveNumber v w).2 = w ∧
    sdk.checkPositiveNumber 0 w = (.ok (), w) ∧
    (mockSDK (.ok ())).transfer ALICE 0 (World.init 0)
      = (.ok (), { chain := 1,
                   trace := [.invoke .transfer [.addr ALICE, .num 0], .wait 0] }) := by
  have h0 : (0 : JsNumber).ltZero = false := by
    show decide (((0 : ℕ) : ℚ) < 0) = false
    simp
  refine ⟨?_, ?_, ?_, ?_, sdk.checkPositiveNumber_pass h0 w, ?_⟩
  · cases h : v.ltZero
    · simp [sdk.checkPositiveNumber_pass h w]
    · simp [sdk.checkPositiveNumber_negative h w]
  · cases h : v.ltZero
    · simp [sdk.checkPositiveNumber_pass h w]
    · simp [sdk.checkPositiveNumber_negative h w]
  · intro hge
    apply sdk.checkPositiveNumber_pass
    cases v <;> simp_all [JsNumber.geZero, JsNumber.ltZero]
  · cases h : v.ltZero
    · simp [sdk.checkPositiveNumber_pass h w]
    · simp [sdk.checkPositiveNumber_negative h w]
  · have hA : (mockSDK (.ok ())).isAddress ALICE = true := isHexAddress_ALICE
    rw [SDK.transfer, Async.bind_ok ((mockSDK (.ok ())).checkAddress_valid hA _),
      Async.bind_ok ((mockSDK (.ok ())).checkPositiveNumber_pass h0 _)]
    rfl

/-- C6, at concrete inputs: `-5` is rejected and `7` is accepted. -/
theorem amount_validator_fails_iff_negative_witness :
    (mockSDK (.ok ())).checkPositiveNumber (.finite (-5)) (World.init 0)
      = (.error invalidAmountError, World.init 0) ∧
    (mockSDK (.ok ())).checkPositiveNumber (.finite 7) (World.init 0)
      = (.ok (), World.init 0) := by
  have h := amount_validator_fails_iff_negative (mockSDK (.ok ())) (.finite (-5)) (World.init 0)
  have k := amount_validator_fails_iff_negative (mockSDK (.ok ())) (.finite 7) (World.init 0)
  have h5 : (JsNumber.finite (-5)).ltZero = true := by simp [JsNumber.ltZero]
  have k7 : (JsNumber.finite 7).geZero = true := by simp [JsNumber.geZero]
  refine ⟨Prod.ext (h.1.2 h5) h.2.2.2.1, k.2.2.1 k7⟩

/-- C10: when an address argument of `transfer`, `approve` or `transferFrom` is malformed and
the amount is negative as well, the operation fails with the invalid-address error, which is
not the invalid-amount error; the result of either check is the same in every world, so it
depends on the arguments alone. -/
theorem address_check_precedes_amount_check {σ : Type} (sdk : SDK σ) (s x : String)
    (a : JsNumber) (w : World σ) (hs : sdk.isAddress s = false) (ha : a.ltZero = true) :
    sdk.transfer s a w = (.error invalidAddressError, w) ∧
    sdk.approve s a w = (.error invalidAddressError, w) ∧
    sdk.transferFrom s x a w = (.error invalidAddressError, w) ∧
    sdk.transferFrom x s a w = (.error invalidAddressError, w) ∧
    sdk.checkPositiveNumber a w = (.error invalidAmountError, w) ∧
    invalidAddressError ≠ invalidAmountError ∧
    invalidAddressError.message = "Invalid Ethereum address" ∧
    invalidAmountError.message = "Value must be a positive number" ∧
    (∀ (y : String) (b : JsNumber) (w' : World σ),
      (sdk.checkAddress y w').1 = (sdk.checkAddress y w).1 ∧
      (sdk.checkAddress y w').2 = w' ∧
      (sdk.checkPositiveNumber b w').1 = (sdk.checkPositiveNumber b w).1 ∧
      (sdk.checkPositiveNumber b w').2 = w') := by
  have first : ∀ {β : Type} (k : Unit → Async σ β),
      (sdk.checkAddress s >>= k) w = (.error invalidAddressError, w) :=
    fun k => Async.bind_error (sdk.checkAddress_invalid hs w)
  refine ⟨first _, first _, first _, ?_, sdk.checkPositiveNumber_negative ha w, by decide,
    rfl, rfl, ?_⟩
  · cases hx : sdk.isAddress x
    · exact Async.bind_error (sdk.checkAddress_invalid hx w)
    · rw [SDK.transferFrom, Async.bind_ok (sdk.checkAddress_valid hx w)]
      exact first _
  · intro y b w'
    refine ⟨?_, ?_, ?_, ?_⟩
    · cases hy : sdk.isAddress y
      · rw [sdk.checkAddress_invalid hy, sdk.checkAddress_invalid hy]
      · rw [sdk.checkAddress_valid hy, sdk.checkAddress_valid hy]
    · cases hy : sdk.isAddress y
      · rw [sdk.checkAddress_invalid hy]
      · rw [sdk.checkAddress_valid hy]
    · cases hb : b.ltZero
      · rw [sdk.checkPositiveNumber_pass hb, sdk.checkPositiveNumber_pass hb]
      · rw [sdk.checkPositiveNumber_negative hb, sdk.checkPositiveNumber_negative hb]
    · cases hb : b.ltZero
      · rw [sdk.checkPositiveNumber_pass hb]
      · rw [sdk.checkPositiveNumber_negative hb]

/-- C10, at a concrete input: `transfer("not-an-address", -5)` on the mock. -/
theorem address_check_precedes_amount_check_witness :
    (mockSDK (.ok ())).isAddress "not-an-address" = false ∧
    (JsNumber.finite (-5)).ltZero = true ∧
    (mockSDK (.ok ())).transfer "not-an-address" (.finite (-5)) (World.init 0)
      = (.error invalidAddressError, World.init 0) :=
  ⟨isHexAddress_bad, by simp [JsNumber.ltZero],
    (address_check_precedes_amount_check (mockSDK (.ok ())) "not-an-address" ALICE
      (.finite (-5)) (World.init 0) isHexAddress_bad (by simp [JsNumber.ltZero])).1⟩

/-! ## Dispatch -/

section Dispatch

variable {σ α : Type}

theorem invocations_call_invoke (m : Method) (args : List Arg)
    (f : σ → Except JsError α × σ) (w : World σ) :
    (Async.call (.invoke m args) f w).2.invocations = w.invocations ++ [.invoke m args] := by
  simp [Async.call, World.invocations, Event.isInvoke]

theorem invocations_call_wait (tx : Tx) (f : σ → Except JsError α × σ) (w : World σ) :
    (Async.call (.wait tx) f w).2.invocations = w.invocations := by
  simp [Async.call, World.invocations, Event.isInvoke]

theorem waits_call_invoke (m : Method) (args : List Arg)
    (f : σ → Except JsError α × σ) (w : World σ) :
    (Async.call (.invoke m args) f w).2.waits = w.waits := by
  simp [Async.call, World.waits, Event.isWait]

/-- A submit followed by the wait on its transaction logs one invocation. -/
theorem invocations_submit_wait (c : Contract σ) (m : Method) (args : List Arg)
    (f : σ → Except JsError Tx × σ) (w : World σ) :
    ((Async.call (.invoke m args) f >>= fun tx => Stub.wait c tx) w).2.invocations
      = w.invocations ++ [.invoke m args] := by
  have h := invocations_call_invoke m args f w
  rcases hr : Async.call (.invoke m args) f w with ⟨_ | tx, w'⟩
  · rw [Async.bind_error hr]
    rw [hr] at h
    exact h
  · rw [Async.bind_ok hr]
    rw [hr] at h
    rw [Stub.wait, invocations_call_wait]
    exact h

/-- A call whose value is dropped, or turned into a string, logs what the call logs. -/
theorem snd_bind_pure {β : Type} (m : Async σ α) (g : α → β) (w : World σ) :
    ((m >>= fun a => (Pure.pure (g a) : Async σ β)) w).2 = (m w).2 := by
  rcases hr : m w with ⟨_ | a, w'⟩
  · rw [Async.bind_error hr]
  · rw [Async.bind_ok hr]
    rfl

end Dispatch

/-- C7: an operation whose inputs pass validation invokes exactly one method of the contract
object, once, whether the call succeeds or fails: the matching method, with the arguments of
the caller, unchanged and in the same order. The log shows that one invocation, and the
outcome is the one of that call on the remote side as it was: its error, rethrown, with the
state it left; or its value (as a decimal string for the two reads of numbers), with the state
it left, which for `transfer` and `approve` is then handed to the one `wait()` on the
transaction returned. -/
theorem dispatch_exactly_once {σ : Type} (sdk : SDK σ) (s x : String) (a b : JsNumber)
    (w : World σ) (hs : sdk.isAddress s = true) (hx : sdk.isAddress x = true)
    (ha : a.ltZero = false) :
    (sdk.getBalance s w).2.invocations = w.invocations ++ [.invoke .balanceOf [.addr s]] ∧
    (sdk.transfer s a w).2.invocations
      = w.invocations ++ [.invoke .transfer [.addr s, .num a]] ∧
    (sdk.approve s a w).2.invocations
      = w.invocations ++ [.invoke .approve [.addr s, .num a]] ∧
    (sdk.allowance s x w).2.invocations
      = w.invocations ++ [.invoke .allowance [.addr s, .addr x]] ∧
    (sdk.increaseAllowance s b w).2.invocations
      = w.invocations ++ [.invoke .increaseAllowance [.addr s, .num b]] ∧
    (sdk.decreaseAllowance s b w).2.invocations
      = w.invocations ++ [.invoke .decreaseAllowance [.addr s, .num b]] ∧
    (sdk.transferFrom s x a w).2.invocations
      = w.invocations ++ [.invoke .transferFrom [.addr s, .addr x, .num a]] ∧
    (sdk.transferOwnership s w).2.invocations
      = w.invocations ++ [.invoke .transferOwnership [.addr s]] ∧
    (sdk.owner w).2.invocations = w.invocations ++ [.invoke .owner []] ∧
    sdk.getBalance s w =
      (match sdk.contract.balanceOf s w.chain with
        | (.ok balance, st) =>
          (.ok (toString balance),
            { chain := st, trace := w.trace ++ [.invoke .balanceOf [.addr s]] })
        | (.error e, st) =>
          (.error e, { chain := st, trace := w.trace ++ [.invoke .balanceOf [.addr s]] })) ∧
    sdk.transfer s a w =
      (match sdk.contract.transfer s a w.chain with
        | (.ok tx, st) =>
          ((sdk.contract.wait tx st).1,
            { chain := (sdk.contract.wait tx st).2,
              trace := w.trace ++ [.invoke .transfer [.addr s, .num a]] ++ [.wait tx] })
        | (.error e, st) =>
          (.error e,
            { chain := st, trace := w.trace ++ [.invoke .transfer [.addr s, .num a]] })) ∧
    sdk.approve s a w =
      (match sdk.contract.approve s a w.chain with
        | (.ok tx, st) =>
          ((sdk.contract.wait tx st).1,
            { chain := (sdk.contract.wait tx st).2,
              trace := w.trace ++ [.invoke .approve [.addr s, .num a]] ++ [.wait tx] })
        | (.error e, st) =>
          (.error e,
            { chain := st, trace := w.trace ++ [.invoke .approve [.addr s, .num a]] })) ∧
    sdk.allowance s x w =
      (match sdk.contract.allowance s x w.chain with
        | (.ok allowedAmount, st) =>
          (.ok (toString allowedAmount),
            { chain := st, trace := w.trace ++ [.invoke .allowance [.addr s, .addr x]] })
        | (.error e, st) =>
          (.error e,
            { chain := st, trace := w.trace ++ [.invoke .allowance [.addr s, .addr x]] })) ∧
    sdk.increaseAllowance s b w =
      (match sdk.contract.increaseAllowance s b w.chain with
        | (.ok _, st) =>
          (.ok (),
            { chain := st,
              trace := w.trace ++ [.invoke .increaseAllowance [.addr s, .num b]] })
        | (.error e, st) =>
          (.error e,
            { chain := st,
              trace := w.trace ++ [.invoke .increaseAllowance [.addr s, .num b]] })) ∧
    sdk.decreaseAllowance s b w =
      (match sdk.contract.decreaseAllowance s b w.chain with
        | (.ok _, st) =>
          (.ok (),
            { chain := st,
              trace := w.trace ++ [.invoke .decreaseAllowance [.addr s, .num b]] })
        | (.error e, st) =>
          (.error e,
            { chain := st,
              trace := w.trace ++ [.invoke .decreaseAllowance [.addr s, .num b]] })) ∧
    sdk.transferFrom s x a w =
      (match sdk.contract.transferFrom s x a w.chain with
        | (.ok _, st) =>
          (.ok (),
            { chain := st,
              trace := w.trace ++ [.invoke .transferFrom [.addr s, .addr x, .num a]] })
        | (.error e, st) =>
          (.error e,
            { chain := st,
              trace := w.trace ++ [.invoke .transferFrom [.addr s, .addr x, .num a]] })) ∧
    sdk.transferOwnership s w =
      (match sdk.contract.transferOwnership s w.chain with
        | (.ok _, st) =>
          (.ok (),
            { chain := st, trace := w.trace ++ [.invoke .transferOwnership [.addr s]] })
        | (.error e, st) =>
          (.error e,
            { chain := st, trace := w.trace ++ [.invoke .transferOwnership [.addr s]] })) ∧
    sdk.owner w =
      ((sdk.contract.owner w.chain).1,
        { chain := (sdk.contract.owner w.chain).2,
          trace := w.trace ++ [.invoke .owner []] }) := by
  have cs := sdk.checkAddress_valid hs w
  have cx := sdk.checkAddress_valid hx w
  have ca := sdk.checkPositiveNumber_pass ha w
  refine ⟨?_, ?_, ?_, ?_, ?_, ?_, ?_, ?_, ?_, ?_, ?_, ?_, ?_, ?_, ?_, ?_, ?_, ?_⟩
  · rw [SDK.getBalance, Async.bind_ok cs, snd_bind_pure]
    exact invocations_call_invoke _ _ _ w
  · rw [SDK.transfer, Async.bind_ok cs, Async.bind_ok ca]
    exact invocations_submit_wait _ _ _ _ w
  · rw [SDK.approve, Async.bind_ok cs, Async.bind_ok ca]
    exact invocations_submit_wait _ _ _ _ w
  · rw [SDK.allowance, Async.bind_ok cs, Async.bind_ok cx, snd_bind_pure]
    exact invocations_call_invoke _ _ _ w
  · rw [SDK.increaseAllowance, Async.bind_ok cs, snd_bind_pure]
    exact invocations_call_invoke _ _ _ w
  · rw [SDK.decreaseAllowance, Async.bind_ok cs, snd_bind_pure]
    exact invocations_call_invoke _ _ _ w
  · rw [SDK.transferFrom, Async.bind_ok cs, Async.bind_ok cx, Async.bind_ok ca, snd_bind_pure]
    exact invocations_call_invoke _ _ _ w
  · rw [SDK.transferOwnership, Async.bind_ok cs, snd_bind_pure]
    exact invocations_call_invoke _ _ _ w
  · exact invocations_call_invoke _ _ _ w
  · rw [SDK.getBalance, Async.bind_ok cs, Stub.balanceOf]
    rcases h : sdk.contract.balanceOf s w.chain with ⟨e | v, st⟩
    · rw [Async.bind_error (Async.call_error _ _ w h)]
    · rw [Async.bind_ok (Async.call_ok _ _ w h)]
      rfl
  · rw [SDK.transfer, Async.bind_ok cs, Async.bind_ok ca, Stub.transfer]
    rcases h : sdk.contract.transfer s a w.chain with ⟨e | tx, st⟩
    · rw [Async.bind_error (Async.call_error _ _ w h)]
    · rw [Async.bind_ok (Async.call_ok _ _ w h)]
      rfl
  · rw [SDK.approve, Async.bind_ok cs, Async.bind_ok ca, Stub.approve]
    rcases h : sdk.contract.approve s a w.chain with ⟨e | tx, st⟩
    · rw [Async.bind_error (Async.call_error _ _ w h)]
    · rw [Async.bind_ok (Async.call_ok _ _ w h)]
      rfl
  · rw [SDK.allowance, Async.bind_ok cs, Async.bind_ok cx, Stub.allowance]
    rcases h : sdk.contract.allowance s x w.chain with ⟨e | v, st⟩
    · rw [Async.bind_error (Async.call_error _ _ w h)]
    · rw [Async.bind_ok (Async.call_ok _ _ w h)]
      rfl
  · rw [SDK.increaseAllowance, Async.bind_ok cs, Stub.increaseAllowance]
    rcases h : sdk.contract.increaseAllowance s b w.chain with ⟨e | tx, st⟩
    · rw [Async.bind_error (Async.call_error _ _ w h)]
    · rw [Async.bind_ok (Async.call_ok _ _ w h)]
      rfl
  · rw [SDK.decreaseAllowance, Async.bind_ok cs, Stub.decreaseAllowance]
    rcases h : sdk.contract.decreaseAllowance s b w.chain with ⟨e | tx, st⟩
    · rw [Async.bind_error (Async.call_error _ _ w h)]
    · rw [Async.bind_ok (Async.call_ok _ _ w h)]
      rfl
  · rw [SDK.transferFrom, Async.bind_ok cs, Async.bind_ok cx, Async.bind_ok ca,
      Stub.transferFrom]
    rcases h : sdk.contract.transferFrom s x a w.chain with ⟨e | tx, st⟩
    · rw [Async.bind_error (Async.call_error _ _ w h)]
    · rw [Async.bind_ok (Async.call_ok _ _ w h)]
      rfl
  · rw [SDK.transferOwnership, Async.bind_ok cs, Stub.transferOwnership]
    rcases h : sdk.contract.transferOwnership s w.chain with ⟨e | tx, st⟩
    · rw [Async.bind_error (Async.call_error _ _ w h)]
    · rw [Async.bind_ok (Async.call_ok _ _ w h)]
      rfl
  · rfl

/-- C7, at a concrete input: `transferFrom(ALICE, BOB, 7)` on the mock logs the one invocation
and returns what the mock's `transferFrom` answers, with the state it left. -/
theorem dispatch_exactly_once_witness :
    (mockSDK (.ok ())).isAddress ALICE = true ∧ (mockSDK (.ok ())).isAddress BOB = true ∧
    (7 : JsNumber).ltZero = false ∧
    ((mockSDK (.ok ())).transferFrom ALICE BOB 7 (World.init 0)).2.invocations
      = (World.init 0).invocations ++ [.invoke .transferFrom [.addr ALICE, .addr BOB, .num 7]] ∧
    (mockSDK (.ok ())).transferFrom ALICE BOB 7 (World.init 0)
      = (.ok (), { chain := 1,
                   trace := [.invoke .transferFrom [.addr ALICE, .addr BOB, .num 7]] }) :=
  have h7 : (7 : JsNumber).ltZero = false := by
    show decide (((7 : ℕ) : ℚ) < 0) = false
    simp
  have h := dispatch_exactly_once (mockSDK (.ok ())) ALICE BOB 7 7 (World.init 0)
    isHexAddress_ALICE isHexAddress_BOB h7
  ⟨isHexAddress_ALICE, isHexAddress_BOB, h7, h.2.2.2.2.2.2.1,
    h.2.2.2.2.2.2.2.2.2.2.2.2.2.2.2.1⟩

/-! ## Amounts that reach the contract -/

/-- C2, evaluated on the operations without amount check: `increaseAllowance(ALICE, -5)` and
`decreaseAllowance(ALICE, -5)` do not fail with the invalid-amount error; the amount `-5`
reaches the contract object, which logs the invocation, while `transfer`, `approve` and
`transferFrom` reject the same amount before any call. -/
theorem allowance_change_skips_amount_check :
    (JsNumber.finite (-5)).ltZero = true ∧
    (mockSDK (.ok ())).increaseAllowance ALICE (.finite (-5)) (World.init 0)
      = (.ok (), { chain := 1,
                   trace := [.invoke .increaseAllowance [.addr ALICE, .num (.finite (-5))]] }) ∧
    (mockSDK (.ok ())).decreaseAllowance ALICE (.finite (-5)) (World.init 0)
      = (.ok (), { chain := 1,
                   trace := [.invoke .decreaseAllowance [.addr ALICE, .num (.finite (-5))]] }) ∧
    (mockSDK (.ok ())).transfer ALICE (.finite (-5)) (World.init 0)
      = (.error invalidAmountError, World.init 0) ∧
    (mockSDK (.ok ())).approve ALICE (.finite (-5)) (World.init 0)
      = (.error invalidAmountError, World.init 0) ∧
    (mockSDK (.ok ())).transferFrom ALICE BOB (.finite (-5)) (World.init 0)
      = (.error invalidAmountError, World.init 0) := by
  have hA : (mockSDK (.ok ())).isAddress ALICE = true := isHexAddress_ALICE
  have hB : (mockSDK (.ok ())).isAddress BOB = true := isHexAddress_BOB
  have h5 : (JsNumber.finite (-5)).ltZero = true := by simp [JsNumber.ltZero]
  have cA := (mockSDK (.ok ())).checkAddress_valid hA (World.init 0)
  have cB := (mockSDK (.ok ())).checkAddress_valid hB (World.init 0)
  have c5 := (mockSDK (.ok ())).checkPositiveNumber_negative h5 (World.init 0)
  refine ⟨h5, ?_, ?_, ?_, ?_, ?_⟩
  · rw [SDK.increaseAllowance, Async.bind_ok cA]
    rfl
  · rw [SDK.decreaseAllowance, Async.bind_ok cA]
    rfl
  · rw [SDK.transfer, Async.bind_ok cA]
    exact Async.bind_error c5
  · rw [SDK.approve, Async.bind_ok cA]
    exact Async.bind_error c5
  · rw [SDK.transferFrom, Async.bind_ok cA, Async.bind_ok cB]
    exact Async.bind_error c5

/-- C9, as stated, fails: `transfer(ALICE, 1.5)` passes validation and hands the amount `1.5`,
which is not an integer, to the contract object. -/
theorem fractional_amount_reaches_contract :
    (JsNumber.finite (3 / 2)).isInteger = false ∧
    (mockSDK (.ok ())).transfer ALICE (.finite (3 / 2)) (World.init 0)
      = (.ok (), { chain := 1,
                   trace := [.invoke .transfer [.addr ALICE, .num (.finite (3 / 2))],
                             .wait 0] }) := by
  have hA : (mockSDK (.ok ())).isAddress ALICE = true := isHexAddress_ALICE
  have h : (JsNumber.finite (3 / 2)).ltZero = false := by
    simp only [JsNumber.ltZero, decide_eq_false_iff_not]
    norm_num
  constructor
  · simp only [JsNumber.isInteger, decide_eq_false_iff_not]
    have : ((3 : ℚ) / 2).den = 2 := by norm_num
    omega
  · rw [SDK.transfer, Async.bind_ok ((mockSDK (.ok ())).checkAddress_valid hA _),
      Async.bind_ok ((mockSDK (.ok ())).checkPositiveNumber_pass h _)]
    rfl

/-- C9, amended: when `transfer`, `approve` or `transferFrom` logs anything at all on the
contract object, the amount is not negative (`amount < 0` is false), and the one invocation
carries that amount unchanged. -/
theorem amount_reaching_contract_not_negative {σ : Type} (sdk : SDK σ) (s x : String)
    (v : JsNumber) (w : World σ) :
    ((sdk.transfer s v w).2.trace ≠ w.trace →
      v.ltZero = false ∧
      (sdk.transfer s v w).2.invocations
        = w.invocations ++ [.invoke .transfer [.addr s, .num v]]) ∧
    ((sdk.approve s v w).2.trace ≠ w.trace →
      v.ltZero = false ∧
      (sdk.approve s v w).2.invocations
        = w.invocations ++ [.invoke .approve [.addr s, .num v]]) ∧
    ((sdk.transferFrom s x v w).2.trace ≠ w.trace →
      v.ltZero = false ∧
      (sdk.transferFrom s x v w).2.invocations
        = w.invocations ++ [.invoke .transferFrom [.addr s, .addr x, .num v]]) := by
  refine ⟨?_, ?_, ?_⟩
  · intro h
    cases hs : sdk.isAddress s
    · rw [SDK.transfer, Async.bind_error (sdk.checkAddress_invalid hs w)] at h
      exact absurd rfl h
    · cases hv : v.ltZero
      · refine ⟨rfl, ?_⟩
        rw [SDK.transfer, Async.bind_ok (sdk.checkAddress_valid hs w),
          Async.bind_ok (sdk.checkPositiveNumber_pass hv w)]
        exact invocations_submit_wait _ _ _ _ w
      · rw [SDK.transfer, Async.bind_ok (sdk.checkAddress_valid hs w),
          Async.bind_error (sdk.checkPositiveNumber_negative hv w)] at h
        exact absurd rfl h
  · intro h
    cases hs : sdk.isAddress s
    · rw [SDK.approve, Async.bind_error (sdk.checkAddress_invalid hs w)] at h
      exact absurd rfl h
    · cases hv : v.ltZero
      · refine ⟨rfl, ?_⟩
        rw [SDK.approve, Async.bind_ok (sdk.checkAddress_valid hs w),
          Async.bind_ok (sdk.checkPositiveNumber_pass hv w)]
        exact invocations_submit_wait _ _ _ _ w
      · rw [SDK.approve, Async.bind_ok (sdk.checkAddress_valid hs w),
          Async.bind_error (sdk.checkPositiveNumber_negative hv w)] at h
        exact absurd rfl h
  · intro h
    cases hs : sdk.isAddress s
    · rw [SDK.transferFrom, Async.bind_error (sdk.checkAddress_invalid hs w)] at h
      exact absurd rfl h
    · cases hx : sdk.isAddress x
      · rw [SDK.transferFrom, Async.bind_ok (sdk.checkAddress_valid hs w),
          Async.bind_error (sdk.checkAddress_invalid hx w)] at h
        exact absurd rfl h
      · cases hv : v.ltZero
        · refine ⟨rfl, ?_⟩
          rw [SDK.transferFrom, Async.bind_ok (sdk.checkAddress_valid hs w),
            Async.bind_ok (sdk.checkAddress_valid hx w),
            Async.bind_ok (sdk.checkPositiveNumber_pass hv w), snd_bind_pure]
          exact invocations_call_invoke _ _ _ w
        · rw [SDK.transferFrom, Async.bind_ok (sdk.checkAddress_valid hs w),
            Async.bind_ok (sdk.checkAddress_valid hx w),
            Async.bind_error (sdk.checkPositiveNumber_negative hv w)] at h
          exact absurd rfl h

/-- C9, amended, at a concrete input: `approve(ALICE, 7)` on the mock logs calls, and `7` is
not negative. -/
theorem amount_reaching_contract_not_negative_witness :
    ((mockSDK (.ok ())).approve ALICE 7 (World.init 0)).2.trace ≠ (World.init 0).trace ∧
    (7 : JsNumber).ltZero = false ∧
    ((mockSDK (.ok ())).approve ALICE 7 (World.init 0)).2.invocations
      = (World.init 0).invocations ++ [.invoke .approve [.addr ALICE, .num 7]] :=
  have hA : (mockSDK (.ok ())).isAddress ALICE = true := isHexAddress_ALICE
  have h7 : (7 : JsNumber).ltZero = false := by
    show decide (((7 : ℕ) : ℚ) < 0) = false
    simp
  have ht : ((mockSDK (.ok ())).approve ALICE 7 (World.init 0)).2.trace
      ≠ (World.init 0).trace := by
    rw [SDK.approve, Async.bind_ok ((mockSDK (.ok ())).checkAddress_valid hA _),
      Async.bind_ok ((mockSDK (.ok ())).checkPositiveNumber_pass h7 _)]
    simp [Stub.approve, Stub.wait, Async.call, World.init, bind, Async.bind, mockSDK, mock]
  ⟨ht, (amount_reaching_contract_not_negative (mockSDK (.ok ())) ALICE BOB 7
    (World.init 0)).2.1 ht⟩

/-! ## The zero address -/

/-- C3, as stated, fails: `transfer(ZERO_ADDRESS, 0)` passes local validation, the contract's
`transfer` is called and waited on, and on a contract that accepts the call the operation
succeeds. -/
theorem zero_address_transfer_is_submitted :
    (mockSDK (.ok ())).isAddress ZERO_ADDRESS = true ∧
    (mockSDK (.ok ())).transfer ZERO_ADDRESS 0 (World.init 0)
      = (.ok (), { chain := 1,
                   trace := [.invoke .transfer [.addr ZERO_ADDRESS, .num 0], .wait 0] }) := by
  have hZ : (mockSDK (.ok ())).isAddress ZERO_ADDRESS = true := isHexAddress_ZERO_ADDRESS
  have h0 : (0 : JsNumber).ltZero = false := by
    show decide (((0 : ℕ) : ℚ) < 0) = false
    simp
  refine ⟨hZ, ?_⟩
  rw [SDK.transfer, Async.bind_ok ((mockSDK (.ok ())).checkAddress_valid hZ _),
    Async.bind_ok ((mockSDK (.ok ())).checkPositiveNumber_pass h0 _)]
  rfl

/-- C3, amended: the zero address being a well-formed address, `transfer(ZERO_ADDRESS, amount)`
with an amount that is not negative passes local validation and calls the contract's
`transfer` with `(ZERO_ADDRESS, amount)`; the rejection is the contract's: when that call
fails with an error, the operation fails with that error, no wait made. -/
theorem zero_address_transfer_left_to_contract {σ : Type} (sdk : SDK σ) (a : JsNumber)
    (w : World σ) (hz : sdk.isAddress ZERO_ADDRESS = true) (ha : a.ltZero = false) :
    (sdk.transfer ZERO_ADDRESS a w).2.invocations
      = w.invocations ++ [.invoke .transfer [.addr ZERO_ADDRESS, .num a]] ∧
    ∀ (e : JsError) (st : σ), sdk.contract.transfer ZERO_ADDRESS a w.chain = (.error e, st) →
      sdk.transfer ZERO_ADDRESS a w
        = (.error e, { chain := st,
                       trace := w.trace ++ [.invoke .transfer [.addr ZERO_ADDRESS, .num a]] }) := by
  constructor
  · rw [SDK.transfer, Async.bind_ok (sdk.checkAddress_valid hz w),
      Async.bind_ok (sdk.checkPositiveNumber_pass ha w)]
    exact invocations_submit_wait _ _ _ _ w
  · intro e st h
    rw [SDK.transfer, Async.bind_ok (sdk.checkAddress_valid hz w),
      Async.bind_ok (sdk.checkPositiveNumber_pass ha w)]
    apply Async.bind_error
    simp [Stub.transfer, Async.call, h]

/-- C3, amended, at a concrete input: `transfer(ZERO_ADDRESS, 0)` on the mock. -/
theorem zero_address_transfer_left_to_contract_witness :
    (mockSDK (.ok ())).isAddress ZERO_ADDRESS = true ∧ (0 : JsNumber).ltZero = false ∧
    ((mockSDK (.ok ())).transfer ZERO_ADDRESS 0 (World.init 0)).2.invocations
      = (World.init 0).invocations ++ [.invoke .transfer [.addr ZERO_ADDRESS, .num 0]] :=
  have h0 : (0 : JsNumber).ltZero = false := by
    show decide (((0 : ℕ) : ℚ) < 0) = false
    simp
  ⟨isHexAddress_ZERO_ADDRESS, h0,
    (zero_address_transfer_left_to_contract (mockSDK (.ok ())) 0 (World.init 0)
      isHexAddress_ZERO_ADDRESS h0).1⟩

/-! ## Confirmation -/

/-- C4, evaluated on the operations that do not wait: `increaseAllowance`,
`decreaseAllowance`, `transferFrom` and `transferOwnership` never call `wait()`, on any
contract and for any arguments; on the mock each returns after the submit alone, while
`transfer` and `approve` log the submit and the wait on the transaction it returned. -/
theorem submit_without_wait {σ : Type} (sdk : SDK σ) (s x : String) (a : JsNumber)
    (w : World σ) :
    (sdk.increaseAllowance s a w).2.waits = w.waits ∧
    (sdk.decreaseAllowance s a w).2.waits = w.waits ∧
    (sdk.transferFrom s x a w).2.waits = w.waits ∧
    (sdk.transferOwnership s w).2.waits = w.waits ∧
    (mockSDK (.ok ())).increaseAllowance ALICE 5 (World.init 0)
      = (.ok (), { chain := 1,
                   trace := [.invoke .increaseAllowance [.addr ALICE, .num 5]] }) ∧
    (mockSDK (.ok ())).decreaseAllowance ALICE 5 (World.init 0)
      = (.ok (), { chain := 1,
                   trace := [.invoke .decreaseAllowance [.addr ALICE, .num 5]] }) ∧
    (mockSDK (.ok ())).transferFrom ALICE BOB 5 (World.init 0)
      = (.ok (), { chain := 1,
                   trace := [.invoke .transferFrom [.addr ALICE, .addr BOB, .num 5]] }) ∧
    (mockSDK (.ok ())).transferOwnership ALICE (World.init 0)
      = (.ok (), { chain := 1,
                   trace := [.invoke .transferOwnership [.addr ALICE]] }) ∧
    (mockSDK (.ok ())).transfer ALICE 5 (World.init 0)
      = (.ok (), { chain := 1,
                   trace := [.invoke .transfer [.addr ALICE, .num 5], .wait 0] }) ∧
    (mockSDK (.ok ())).approve ALICE 5 (World.init 0)
      = (.ok (), { chain := 1,
                   trace := [.invoke .approve [.addr ALICE, .num 5], .wait 0] }) := by
  have hA : (mockSDK (.ok ())).isAddress ALICE = true := isHexAddress_ALICE
  have hB : (mockSDK (.ok ())).isAddress BOB = true := isHexAddress_BOB
  have h5 : (5 : JsNumber).ltZero = false := by
    show decide (((5 : ℕ) : ℚ) < 0) = false
    simp
  have cA := (mockSDK (.ok ())).checkAddress_valid hA (World.init 0)
  have cB := (mockSDK (.ok ())).checkAddress_valid hB (World.init 0)
  have c5 := (mockSDK (.ok ())).checkPositiveNumber_pass h5 (World.init 0)
  refine ⟨?_, ?_, ?_, ?_, ?_, ?_, ?_, ?_, ?_, ?_⟩
  · cases hs : sdk.isAddress s
    · rw [SDK.increaseAllowance, Async.bind_error (sdk.checkAddress_invalid hs w)]
    · rw [SDK.increaseAllowance, Async.bind_ok (sdk.checkAddress_valid hs w), snd_bind_pure]
      exact waits_call_invoke _ _ _ w
  · cases hs : sdk.isAddress s
    · rw [SDK.decreaseAllowance, Async.bind_error (sdk.checkAddress_invalid hs w)]
    · rw [SDK.decreaseAllowance, Async.bind_ok (sdk.checkAddress_valid hs w), snd_bind_pure]
      exact waits_call_invoke _ _ _ w
  · cases hs : sdk.isAddress s
    · rw [SDK.transferFrom, Async.bind_error (sdk.checkAddress_invalid hs w)]
    · rw [SDK.transferFrom, Async.bind_ok (sdk.checkAddress_valid hs w)]
      cases hx : sdk.isAddress x
      · rw [Async.bind_error (sdk.checkAddress_invalid hx w)]
      · rw [Async.bind_ok (sdk.checkAddress_valid hx w)]
        cases ha : a.ltZero
        · rw [Async.bind_ok (sdk.checkPositiveNumber_pass ha w), snd_bind_pure]
          exact waits_call_invoke _ _ _ w
        · rw [Async.bind_error (sdk.checkPositiveNumber_negative ha w)]
  · cases hs : sdk.isAddress s
    · rw [SDK.transferOwnership, Async.bind_error (sdk.checkAddress_invalid hs w)]
    · rw [SDK.transferOwnership, Async.bind_ok (sdk.checkAddress_valid hs w), snd_bind_pure]
      exact waits_call_invoke _ _ _ w
  · rw [SDK.increaseAllowance, Async.bind_ok cA]
    rfl
  · rw [SDK.decreaseAllowance, Async.bind_ok cA]
    rfl
  · rw [SDK.transferFrom, Async.bind_ok cA, Async.bind_ok cB, Async.bind_ok c5]
    rfl
  · rw [SDK.transferOwnership, Async.bind_ok cA]
    rfl
  · rw [SDK.transfer, Async.bind_ok cA, Async.bind_ok c5]
    rfl
  · rw [SDK.approve, Async.bind_ok cA, Async.bind_ok c5]
    rfl

section Rethrow

variable {σ α : Type}

/-- An error thrown by the one contract call of an operation is the error of the operation,
unchanged; so is, in `transfer` and `approve`, the error thrown by `wait()`. -/
theorem contract_error_rethrown (sdk : SDK σ) (s x : String) (a b : JsNumber) (w : World σ)
    (e : JsError) (st : σ) (hs : sdk.isAddress s = true) (hx : sdk.isAddress x = true)
    (ha : a.ltZero = false) :
    (sdk.contract.balanceOf s w.chain = (.error e, st) → (sdk.getBalance s w).1 = .error e) ∧
    (sdk.contract.transfer s a w.chain = (.error e, st) → (sdk.transfer s a w).1 = .error e) ∧
    (sdk.contract.approve s a w.chain = (.error e, st) → (sdk.approve s a w).1 = .error e) ∧
    (sdk.contract.allowance s x w.chain = (.error e, st) →
      (sdk.allowance s x w).1 = .error e) ∧
    (sdk.contract.increaseAllowance s b w.chain = (.error e, st) →
      (sdk.increaseAllowance s b w).1 = .error e) ∧
    (sdk.contract.decreaseAllowance s b w.chain = (.error e, st) →
      (sdk.decreaseAllowance s b w).1 = .error e) ∧
    (sdk.contract.transferFrom s x a w.chain = (.error e, st) →
      (sdk.transferFrom s x a w).1 = .error e) ∧
    (sdk.contract.transferOwnership s w.chain = (.error e, st) →
      (sdk.transferOwnership s w).1 = .error e) ∧
    (sdk.contract.owner w.chain = (.error e, st) → (sdk.owner w).1 = .error e) ∧
    (∀ (tx : Tx) (st' : σ), sdk.contract.transfer s a w.chain = (.ok tx, st) →
      sdk.contract.wait tx st = (.error e, st') → (sdk.transfer s a w).1 = .error e) ∧
    (∀ (tx : Tx) (st' : σ), sdk.contract.approve s a w.chain = (.ok tx, st) →
      sdk.contract.wait tx st = (.error e, st') → (sdk.approve s a w).1 = .error e) := by
  have cs := sdk.checkAddress_valid hs w
  have cx := sdk.checkAddress_valid hx w
  have ca := sdk.checkPositiveNumber_pass ha w
  refine ⟨?_, ?_, ?_, ?_, ?_, ?_, ?_, ?_, ?_, ?_, ?_⟩
  · intro h
    rw [SDK.getBalance, Async.bind_ok cs, Stub.balanceOf,
      Async.bind_error (Async.call_error _ _ w h)]
  · intro h
    rw [SDK.transfer, Async.bind_ok cs, Async.bind_ok ca, Stub.transfer,
      Async.bind_error (Async.call_error _ _ w h)]
  · intro h
    rw [SDK.approve, Async.bind_ok cs, Async.bind_ok ca, Stub.approve,
      Async.bind_error (Async.call_error _ _ w h)]
  · intro h
    rw [SDK.allowance, Async.bind_ok cs, Async.bind_ok cx, Stub.allowance,
      Async.bind_error (Async.call_error _ _ w h)]
  · intro h
    rw [SDK.increaseAllowance, Async.bind_ok cs, Stub.increaseAllowance,
      Async.bind_error (Async.call_error _ _ w h)]
  · intro h
    rw [SDK.decreaseAllowance, Async.bind_ok cs, Stub.decreaseAllowance,
      Async.bind_error (Async.call_error _ _ w h)]
  · intro h
    rw [SDK.transferFrom, Async.bind_ok cs, Async.bind_ok cx, Async.bind_ok ca,
      Stub.transferFrom, Async.bind_error (Async.call_error _ _ w h)]
  · intro h
    rw [SDK.transferOwnership, Async.bind_ok cs, Stub.transferOwnership,
      Async.bind_error (Async.call_error _ _ w h)]
  · intro h
    rw [SDK.owner, Stub.owner, Async.call_error _ _ w h]
  · intro tx st' h hw
    rw [SDK.transfer, Async.bind_ok cs, Async.bind_ok ca, Stub.transfer,
      Async.bind_ok (Async.call_ok _ _ w h), Stub.wait]
    rw [Async.call_error _ _ _ hw]
  · intro tx st' h hw
    rw [SDK.approve, Async.bind_ok cs, Async.bind_ok ca, Stub.approve,
      Async.bind_ok (Async.call_ok _ _ w h), Stub.wait]
    rw [Async.call_error _ _ _ hw]

end Rethrow

/-- C5, evaluated on a contract whose transactions all finalize as reverted: the operations
that do not wait return success although `wait()` on the transaction they submitted fails
with the revert error, while `transfer` and `approve` fail with exactly that error. -/
theorem revert_not_reported_without_wait :
    (mock (.error revertError)).wait 0 1 = (.error revertError, 1) ∧
    ((mockSDK (.error revertError)).increaseAllowance ALICE 5 (World.init 0)).1 = .ok () ∧
    ((mockSDK (.error revertError)).decreaseAllowance ALICE 5 (World.init 0)).1 = .ok () ∧
    ((mockSDK (.error revertError)).transferFrom ALICE BOB 5 (World.init 0)).1 = .ok () ∧
    ((mockSDK (.error revertError)).transferOwnership ALICE (World.init 0)).1 = .ok () ∧
    ((mockSDK (.error revertError)).transfer ALICE 5 (World.init 0)).1
      = .error revertError ∧
    ((mockSDK (.error revertError)).approve ALICE 5 (World.init 0)).1
      = .error revertError := by
  have hA : (mockSDK (.error revertError)).isAddress ALICE = true := isHexAddress_ALICE
  have hB : (mockSDK (.error revertError)).isAddress BOB = true := isHexAddress_BOB
  have h5 : (5 : JsNumber).ltZero = false := by
    show decide (((5 : ℕ) : ℚ) < 0) = false
    simp
  have cA := (mockSDK (.error revertError)).checkAddress_valid hA (World.init 0)
  have cB := (mockSDK (.error revertError)).checkAddress_valid hB (World.init 0)
  have c5 := (mockSDK (.error revertError)).checkPositiveNumber_pass h5 (World.init 0)
  refine ⟨rfl, ?_, ?_, ?_, ?_, ?_, ?_⟩
  · rw [SDK.increaseAllowance, Async.bind_ok cA]
    rfl
  · rw [SDK.decreaseAllowance, Async.bind_ok cA]
    rfl
  · rw [SDK.transferFrom, Async.bind_ok cA, Async.bind_ok cB, Async.bind_ok c5]
    rfl
  · rw [SDK.transferOwnership, Async.bind_ok cA]
    rfl
  · rw [SDK.transfer, Async.bind_ok cA, Async.bind_ok c5]
    rfl
  · rw [SDK.approve, Async.bind_ok cA, Async.bind_ok c5]
    rfl

/-! ## Read-your-writes for allowances -/

section ReadBack

theorem Chain.foldl_finalize_frame (ps : List (Tx × Request)) (c : Chain) :
    (ps.foldl Chain.finalize c).signer = c.signer ∧
    (ps.foldl Chain.finalize c).pending = c.pending := by
  induction ps generalizing c with
  | nil => exact ⟨rfl, rfl⟩
  | cons p ps ih =>
    have hp : (c.finalize p).signer = c.signer ∧ (c.finalize p).pending = c.pending := by
      unfold Chain.finalize
      split <;> exact ⟨rfl, rfl⟩
    rw [List.foldl_cons]
    exact ⟨(ih _).1.trans hp.1, (ih _).2.trans hp.2⟩

theorem Chain.mine_frame (c : Chain) : c.mine.signer = c.signer ∧ c.mine.pending = [] :=
  Chain.foldl_finalize_frame c.pending { c with pending := [] }

theorem Chain.finalize_approve (c : Chain) (tx : Tx) (spender : String) (n : Nat) :
    (c.finalize (tx, .approve spender n)).ledger.allowances c.signer spender = n := by
  simp [Chain.finalize, Ledger.apply]

theorem Chain.mine_ledger_of_pending_nil (c : Chain) (h : c.pending = []) :
    c.mine.ledger = c.ledger := by
  simp [Chain.mine, h]

/-- Once the approval is submitted and waited on, the finalized allowance is the approved
amount, on a network that finalizes at submission as on one that does not. -/
theorem Chain.allowance_after_submit_approve_mine (c : Chain) (spender : String) (n : Nat) :
    ((Chain.submit (.approve spender n) c).2.mine).ledger.allowances c.signer spender = n := by
  have key : ∀ d : Chain, d.signer = c.signer →
      d.pending = c.pending ++ [(c.nextTx, Request.approve spender n)] →
      d.mine.ledger.allowances c.signer spender = n := by
    intro d hs hp
    rw [Chain.mine, hp, List.foldl_append, List.foldl_cons, List.foldl_nil]
    have hsig := (Chain.foldl_finalize_frame c.pending { d with pending := [] }).1
    have := Chain.finalize_approve
      (List.foldl Chain.finalize { d with pending := [] } c.pending) c.nextTx spender n
    rw [hsig] at this
    rw [← hs]
    exact this
  unfold Chain.submit
  cases hauto : c.automine
  · exact key _ rfl rfl
  · simp only [if_true]
    rw [Chain.mine_ledger_of_pending_nil _ (Chain.mine_frame _).2]
    exact key _ rfl rfl

theorem Chain.wait_snd (tx : Tx) (c : Chain) : (Chain.wait tx c).2 = c.mine := by
  unfold Chain.wait
  simp only []
  rcases hl : List.lookup tx c.mine.receipts with _ | _ | e <;> rfl

/-- On the reference token contract, whatever was pending before, once `approve(spender, a)`
has returned successfully `allowance(signer, spender)` returns the decimal string of `a`. -/
theorem approve_read_back (isAddress : String → Bool) (spender : String) (a : JsNumber)
    (n : Nat) (w w' : World Chain) (hn : a.toAmount = some n)
    (hsp : isAddress spender = true) (hsig : isAddress w.chain.signer = true)
    (h : (SDK.mk isAddress Chain.contract).approve spender a w = (.ok (), w')) :
    ((SDK.mk isAddress Chain.contract).allowance w.chain.signer spender w').1
      = .ok (toString (n : Int)) := by
  have ha : a.ltZero = false := by
    cases a with
    | finite q =>
      simp only [JsNumber.toAmount] at hn
      split at hn
      · rename_i hq
        have : (0 : ℚ) ≤ q := Rat.num_nonneg.mp hq.2
        simp [JsNumber.ltZero, this]
      · exact absurd hn (by simp)
    | nan => rfl
    | posInf => rfl
    | negInf => simp [JsNumber.toAmount] at hn
  have hw : w'.chain = (Chain.submit (.approve spender n) w.chain).2.mine := by
    rw [SDK.approve, Async.bind_ok (SDK.checkAddress_valid _ hsp w),
      Async.bind_ok (SDK.checkPositiveNumber_pass _ ha w)] at h
    have hsub : Stub.approve (SDK.mk isAddress Chain.contract).contract spender a w
        = (.ok w.chain.nextTx,
            { chain := (Chain.submit (.approve spender n) w.chain).2,
              trace := w.trace ++ [.invoke .approve [.addr spender, .num a]] }) := by
      simp [Stub.approve, Async.call, Chain.contract, Chain.submitAmount, hn, Chain.submit]
    rw [Async.bind_ok hsub] at h
    have := congrArg (fun r => r.2.chain) h
    simp only [Stub.wait, Async.call, Chain.contract] at this
    rw [← this, Chain.wait_snd]
  rw [SDK.allowance, Async.bind_ok (SDK.checkAddress_valid _ hsig w'),
    Async.bind_ok (SDK.checkAddress_valid _ hsp w')]
  have hread : Stub.allowance (SDK.mk isAddress Chain.contract).contract w.chain.signer
      spender w' = (.ok (n : Int),
        { chain := w'.chain,
          trace := w'.trace ++ [.invoke .allowance [.addr w.chain.signer, .addr spender]] }) := by
    simp [Stub.allowance, Async.call, Chain.contract, hw,
      Chain.allowance_after_submit_approve_mine]
  rw [Async.bind_ok hread]
  rfl

/-- The read-back of an approval at a concrete input: `approve(BOB, 100)` on a network that
does not finalize at submission. -/
theorem approve_read_back_witness :
    ((SDK.mk isHexAddress Chain.contract).allowance ALICE BOB
      ((SDK.mk isHexAddress Chain.contract).approve BOB 100
        (World.init (Chain.genesis ALICE false))).2).1 = .ok (toString (100 : Int)) :=
  approve_read_back isHexAddress BOB 100 100 (World.init (Chain.genesis ALICE false)) _ rfl
    isHexAddress_BOB isHexAddress_ALICE rfl

end ReadBack

/-- C8, evaluated against the reference token contract. On a network that finalizes at
submission, `approve(BOB, 100)`, `increaseAllowance(BOB, 100)`, `decreaseAllowance(BOB, 100)`
are read back as `"100"`, `"200"`, `"100"`. On a network where a transaction stays pending
until it is waited on, `approve`, which waits, is read back as `"100"`, but after
`increaseAllowance(BOB, 100)` has returned successfully the allowance still reads `"100"` and
not `"200"`: the call returned without waiting for its transaction. -/
theorem allowance_not_read_back_without_wait :
    ((do referenceSDK.approve BOB 100
         referenceSDK.allowance ALICE BOB) (World.init (Chain.genesis ALICE true))).1
      = .ok "100" ∧
    ((do referenceSDK.approve BOB 100
         referenceSDK.increaseAllowance BOB 100
         referenceSDK.allowance ALICE BOB) (World.init (Chain.genesis ALICE true))).1
      = .ok "200" ∧
    ((do referenceSDK.approve BOB 100
         referenceSDK.increaseAllowance BOB 100
         referenceSDK.decreaseAllowance BOB 100
         referenceSDK.allowance ALICE BOB) (World.init (Chain.genesis ALICE true))).1
      = .ok "100" ∧
    ((do referenceSDK.approve BOB 100
         referenceSDK.allowance ALICE BOB) (World.init (Chain.genesis ALICE false))).1
      = .ok "100" ∧
    ((do referenceSDK.approve BOB 100
         referenceSDK.increaseAllowance BOB 100) (World.init (Chain.genesis ALICE false))).1
      = .ok () ∧
    ((do referenceSDK.approve BOB 100
         referenceSDK.increaseAllowance BOB 100
         referenceSDK.allowance ALICE BOB) (World.init (Chain.genesis ALICE false))).1
      = .ok "100" ∧
    ((do referenceSDK.approve BOB 100
         referenceSDK.increaseAllowance BOB 100
         referenceSDK.allowance ALICE BOB) (World.init (Chain.genesis ALICE false))).2.trace
      = [.invoke .approve [.addr BOB, .num 100], .wait 0,
         .invoke .increaseAllowance [.addr BOB, .num 100],
         .invoke .allowance [.addr ALICE, .addr BOB]] :=
  ⟨rfl, rfl, rfl, rfl, rfl, rfl, rfl⟩

end LoyaltySDK
